import Mathlib

/-!
Verification of the JUCE `FastMathApproximations` struct
(`modules/juce_dsp/maths/juce_FastMathApproximations.h`).

Each of the eight approximation functions computes, with the source's
local names, a `numerator` and a `denominator` (Horner-form polynomial
expressions in `x` or in `x2 = x * x`) and returns their quotient.  We
embed each function over an arbitrary field `K`, mirroring those
expressions literally; `K` is instantiated at `ℚ` for exact executable
checks and at `ℝ` for the analysis of the documented input domains.

The buffer forms (`for (size_t i = 0; i < numValues; ++i)
values[i] = f(values[i]);`) are embedded as an index-driven loop over a
`List K`, with the number of remaining iterations as structural fuel
(the loop variable `i` runs from `0` while `numValues - i` counts down).
-/

namespace FastMathApproximations

variable {K : Type} [Field K]

/-- Numerator of `cosh` (source lines 47-51): with `x2 = x * x`,
`-(a + x2 * (b + x2 * (c + d * x2)))`. -/
def cosh_num (x : K) : K :=
  let a : K := 39251520;
  let b : K := 39251520;
  let c : K := 1075032;
  let d : K := 14615;
  let x2 := x * x;
  -(a + x2 * (b + x2 * (c + d * x2)))

/-- Denominator of `cosh` (source lines 47-52): with `x2 = x * x`,
`-a + x2 * (e + x2 * (-f + g * x2))`. -/
def cosh_den (x : K) : K :=
  let a : K := 39251520;
  let e : K := 1154160;
  let f : K := 16632;
  let g : K := 127;
  let x2 := x * x;
  -a + x2 * (e + x2 * (-f + g * x2))

/-- Scalar `cosh` (source lines 44-54): `numerator / denominator`. -/
def cosh (x : K) : K := cosh_num x / cosh_den x

/-- Numerator of `sinh` (source line 79). -/
def sinh_num (x : K) : K :=
  let x2 := x * x;
  -x * (11511339840 + x2 * (1640635920 + x2 * (52785432 + x2 * 479249)))

/-- Denominator of `sinh` (source line 80). -/
def sinh_den (x : K) : K :=
  let x2 := x * x;
  -11511339840 + x2 * (277920720 + x2 * (-3177720 + x2 * 18361))

/-- Scalar `sinh` (source lines 75-82). -/
def sinh (x : K) : K := sinh_num x / sinh_den x

/-- Numerator of `tanh` (source line 107). -/
def tanh_num (x : K) : K :=
  let x2 := x * x;
  x * (135135 + x2 * (17325 + x2 * (378 + x2)))

/-- Denominator of `tanh` (source line 108). -/
def tanh_den (x : K) : K :=
  let x2 := x * x;
  135135 + x2 * (62370 + x2 * (3150 + 28 * x2))

/-- Scalar `tanh` (source lines 103-110). -/
def tanh (x : K) : K := tanh_num x / tanh_den x

/-- Numerator of `cos` (source lines 135-140): with `x2 = x * x`,
`-(-a + x2 * (b + x2 * (-c + d * x2)))`. -/
def cos_num (x : K) : K :=
  let a : K := 39251520;
  let b : K := 18471600;
  let c : K := 1075032;
  let d : K := 14615;
  let x2 := x * x;
  -(-a + x2 * (b + x2 * (-c + d * x2)))

/-- Denominator of `cos` (source lines 135-141): with `x2 = x * x`,
`a + x2 * (e + x2 * (f + x2 * g))`. -/
def cos_den (x : K) : K :=
  let a : K := 39251520;
  let e : K := 1154160;
  let f : K := 16632;
  let g : K := 127;
  let x2 := x * x;
  a + x2 * (e + x2 * (f + x2 * g))

/-- Scalar `cos` (source lines 132-143). -/
def cos (x : K) : K := cos_num x / cos_den x

/-- Numerator of `sin` (source lines 167-171): with `x2 = x * x`,
`-x * (-a + x2 * (b + x2 * (-c + x2 * d)))`. -/
def sin_num (x : K) : K :=
  let a : K := 11511339840;
  let b : K := 1640635920;
  let c : K := 52785432;
  let d : K := 479249;
  let x2 := x * x;
  -x * (-a + x2 * (b + x2 * (-c + x2 * d)))

/-- Denominator of `sin` (source lines 167-172): with `x2 = x * x`,
`a + x2 * (e + x2 * (f + x2 * g))`. -/
def sin_den (x : K) : K :=
  let a : K := 11511339840;
  let e : K := 277920720;
  let f : K := 3177720;
  let g : K := 18361;
  let x2 := x * x;
  a + x2 * (e + x2 * (f + x2 * g))

/-- Scalar `sin` (source lines 164-174). -/
def sin (x : K) : K := sin_num x / sin_den x

/-- Numerator of `tan` (source line 199). -/
def tan_num (x : K) : K :=
  let x2 := x * x;
  x * (-135135 + x2 * (17325 + x2 * (-378 + x2)))

/-- Denominator of `tan` (source line 200). -/
def tan_den (x : K) : K :=
  let x2 := x * x;
  -135135 + x2 * (62370 + x2 * (-3150 + 28 * x2))

/-- Scalar `tan` (source lines 195-202). -/
def tan (x : K) : K := tan_num x / tan_den x

/-- Numerator of `exp` (source line 227). -/
def exp_num (x : K) : K :=
  1680 + x * (840 + x * (180 + x * (20 + x)))

/-- Denominator of `exp` (source line 228). -/
def exp_den (x : K) : K :=
  1680 + x * (-840 + x * (180 + x * (-20 + x)))

/-- Scalar `exp` (source lines 224-230). -/
def exp (x : K) : K := exp_num x / exp_den x

/-- Numerator of `logNPlusOne` (source line 254). -/
def logNPlusOne_num (x : K) : K :=
  x * (7560 + x * (15120 + x * (9870 + x * (2310 + x * 137))))

/-- Denominator of `logNPlusOne` (source line 255). -/
def logNPlusOne_den (x : K) : K :=
  7560 + x * (18900 + x * (16800 + x * (6300 + x * (900 + 30 * x))))

/-- Scalar `logNPlusOne` (source lines 251-257). -/
def logNPlusOne (x : K) : K := logNPlusOne_num x / logNPlusOne_den x

/-- The loop shared by all eight buffer forms
(`for (size_t i = 0; i < numValues; ++i) values[i] = f (values[i]);`),
with the remaining iteration count `numValues - i` as structural fuel:
`bufferLoop f i r values` performs the iterations `i, i+1, ..., i+r-1`. -/
def bufferLoop (f : K → K) : ℕ → ℕ → List K → List K
  | _, 0, values => values
  | i, r + 1, values => bufferLoop f (i + 1) r (values.set i (f (values.getD i 0)))

/-- Buffer form of `cosh` (source lines 62-67). -/
def cosh_buffer (values : List K) (numValues : ℕ) : List K :=
  bufferLoop cosh 0 numValues values

/-- Buffer form of `sinh` (source lines 90-95). -/
def sinh_buffer (values : List K) (numValues : ℕ) : List K :=
  bufferLoop sinh 0 numValues values

/-- Buffer form of `tanh` (source lines 118-123). -/
def tanh_buffer (values : List K) (numValues : ℕ) : List K :=
  bufferLoop tanh 0 numValues values

/-- Buffer form of `cos` (source lines 151-156). -/
def cos_buffer (values : List K) (numValues : ℕ) : List K :=
  bufferLoop cos 0 numValues values

/-- Buffer form of `sin` (source lines 182-187). -/
def sin_buffer (values : List K) (numValues : ℕ) : List K :=
  bufferLoop sin 0 numValues values

/-- Buffer form of `tan` (source lines 210-215). -/
def tan_buffer (values : List K) (numValues : ℕ) : List K :=
  bufferLoop tan 0 numValues values

/-- Buffer form of `exp` (source lines 238-243). -/
def exp_buffer (values : List K) (numValues : ℕ) : List K :=
  bufferLoop exp 0 numValues values

/-- Buffer form of `logNPlusOne` (source lines 265-270). -/
def logNPlusOne_buffer (values : List K) (numValues : ℕ) : List K :=
  bufferLoop logNPlusOne 0 numValues values


/-! ### Generic lemmas about the buffer-form loop -/

theorem length_bufferLoop (f : K → K) :
    ∀ (r i : ℕ) (l : List K), (bufferLoop f i r l).length = l.length := by
  intro r
  induction r with
  | zero => intro i l; rfl
  | succ r ih => intro i l; rw [bufferLoop, ih, List.length_set]

theorem getElem?_bufferLoop_of_lt (f : K → K) :
    ∀ (r i j : ℕ) (l : List K), j < i → (bufferLoop f i r l)[j]? = l[j]? := by
  intro r
  induction r with
  | zero => intro i j l _; rfl
  | succ r ih =>
    intro i j l hj
    rw [bufferLoop, ih (i + 1) j _ (Nat.lt_succ_of_lt hj),
      List.getElem?_set_ne (Nat.ne_of_gt hj)]

theorem getElem?_bufferLoop_of_ge (f : K → K) :
    ∀ (r i j : ℕ) (l : List K), i + r ≤ j → (bufferLoop f i r l)[j]? = l[j]? := by
  intro r
  induction r with
  | zero => intro i j l _; rfl
  | succ r ih =>
    intro i j l hj
    rw [bufferLoop, ih (i + 1) j _ (by omega), List.getElem?_set_ne (by omega)]

theorem getElem?_bufferLoop_of_mem (f : K → K) :
    ∀ (r i j : ℕ) (l : List K), i ≤ j → j < i + r →
      (bufferLoop f i r l)[j]? = Option.map f l[j]? := by
  intro r
  induction r with
  | zero => intro i j l h1 h2; omega
  | succ r ih =>
    intro i j l h1 h2
    rcases Nat.eq_or_lt_of_le h1 with heq | hlt
    · subst heq
      rw [bufferLoop, getElem?_bufferLoop_of_lt f r (i + 1) i _ (Nat.lt_succ_self i)]
      by_cases hlen : i < l.length
      · rw [List.getElem?_set_self hlen, List.getElem?_eq_getElem hlen]
        rw [List.getD_eq_getElem?_getD, List.getElem?_eq_getElem hlen]
        rfl
      · have hnone : l[i]? = none := List.getElem?_eq_none (le_of_not_lt hlen)
        rw [List.getElem?_set, if_pos rfl, if_neg hlen, hnone]
        rfl
    · rw [bufferLoop, ih (i + 1) j _ hlt (by omega), List.getElem?_set_ne (by omega)]

theorem buffer_elementwise (f : K → K) (buf : List K) (n i : ℕ) (hi : i < n) :
    (bufferLoop f 0 n buf)[i]? = Option.map f buf[i]? :=
  getElem?_bufferLoop_of_mem f n 0 i buf (Nat.zero_le i) (by omega)

theorem buffer_eq_map_take (f : K → K) (buf : List K) (n : ℕ) (h : n ≤ buf.length) :
    bufferLoop f 0 n buf = (buf.take n).map f ++ buf.drop n := by
  apply List.ext_getElem?
  intro j
  by_cases hj : j < n
  · rw [buffer_elementwise f buf n j hj, List.getElem?_append_left
      (by rw [List.length_map, List.length_take]; omega),
      List.getElem?_map, List.getElem?_take, if_pos hj]
  · rw [getElem?_bufferLoop_of_ge f n 0 j buf (by omega), List.getElem?_append_right
      (by rw [List.length_map, List.length_take]; omega),
      List.length_map, List.length_take, List.getElem?_drop]
    congr 1
    omega

/-! ### Parity helper lemmas for the scalar forms -/

theorem sin_neg_eq (x : K) : sin (-x) = -sin x := by
  have h1 : sin_num (-x) = -sin_num x := by simp only [sin_num]; ring
  have h2 : sin_den (-x) = sin_den x := by simp only [sin_den]; ring
  rw [sin, sin, h1, h2, neg_div]

theorem tan_neg_eq (x : K) : tan (-x) = -tan x := by
  have h1 : tan_num (-x) = -tan_num x := by simp only [tan_num]; ring
  have h2 : tan_den (-x) = tan_den x := by simp only [tan_den]; ring
  rw [tan, tan, h1, h2, neg_div]

theorem cos_neg_eq (x : K) : cos (-x) = cos x := by
  have h1 : cos_num (-x) = cos_num x := by simp only [cos_num]; ring
  have h2 : cos_den (-x) = cos_den x := by simp only [cos_den]; ring
  rw [cos, cos, h1, h2]

theorem cosh_neg_eq (x : K) : cosh (-x) = cosh x := by
  have h1 : cosh_num (-x) = cosh_num x := by simp only [cosh_num]; ring
  have h2 : cosh_den (-x) = cosh_den x := by simp only [cosh_den]; ring
  rw [cosh, cosh, h1, h2]


/-! ### Sign of each denominator polynomial on the documented input domain -/

theorem cosh_den_neg (x : ℝ) (h : x * x ≤ 25) : cosh_den x < 0 := by
  have h0 : 0 ≤ x * x := mul_self_nonneg x
  simp only [cosh_den]
  nlinarith [mul_nonneg (mul_nonneg h0 h0) (sub_nonneg.mpr h),
    sq_nonneg (13457 * (x * x) - 577080)]

theorem sinh_den_neg (x : ℝ) (h : x * x ≤ 25) : sinh_den x < 0 := by
  have h0 : 0 ≤ x * x := mul_self_nonneg x
  simp only [sinh_den]
  nlinarith [mul_nonneg (mul_nonneg h0 h0) (sub_nonneg.mpr h),
    sq_nonneg (2718695 * (x * x) - 138960360)]

theorem tanh_den_pos (x : ℝ) : 0 < tanh_den x := by
  have h0 : 0 ≤ x * x := mul_self_nonneg x
  simp only [tanh_den]
  nlinarith [mul_nonneg h0 h0, mul_nonneg (mul_nonneg h0 h0) h0]

theorem cos_den_pos (x : ℝ) : 0 < cos_den x := by
  have h0 : 0 ≤ x * x := mul_self_nonneg x
  simp only [cos_den]
  nlinarith [mul_nonneg h0 h0, mul_nonneg (mul_nonneg h0 h0) h0]

theorem sin_den_pos (x : ℝ) : 0 < sin_den x := by
  have h0 : 0 ≤ x * x := mul_self_nonneg x
  simp only [sin_den]
  nlinarith [mul_nonneg h0 h0, mul_nonneg (mul_nonneg h0 h0) h0]

/-- The `tan` denominator `28 t³ - 3150 t² + 62370 t - 135135` (in `t = x²`)
has its smallest positive root at `t* ≈ 2.4674011087`, a hair above
`π²/4 ≈ 2.4674011003`, so it stays negative for `t ≤ 2.467401105`. -/
theorem tan_den_neg (x : ℝ) (h : x * x ≤ 493480221 / 200000000) : tan_den x < 0 := by
  have h0 : 0 ≤ x * x := mul_self_nonneg x
  have h3 : (0 : ℝ) ≤ 3150 - 56 * (493480221 / 200000000) - 28 * (x * x) := by linarith
  simp only [tan_den]
  nlinarith [sq_nonneg (493480221 / 200000000 - x * x),
    mul_nonneg (sq_nonneg (493480221 / 200000000 - x * x)) h3]

/-- The `exp` denominator is `(x² - 10x + 30)² + 20 (x - 6)² + 60`, hence
positive for every real `x`, not only on the documented domain. -/
theorem exp_den_pos (x : ℝ) : 0 < exp_den x := by
  simp only [exp_den]
  nlinarith [sq_nonneg (x ^ 2 - 10 * x + 30), sq_nonneg (x - 6)]

theorem logNPlusOne_den_pos (x : ℝ) (ha : -0.8 ≤ x) (hb : x ≤ 5) :
    0 < logNPlusOne_den x := by
  have h1 : (0 : ℝ) ≤ x + 0.8 := by linarith
  have h2 : (0 : ℝ) ≤ 5 - x := by linarith
  simp only [logNPlusOne_den]
  nlinarith [mul_nonneg (sq_nonneg (x * x)) h1, mul_nonneg (sq_nonneg x) h1,
    sq_nonneg (x * x - x), sq_nonneg (x * x + x), mul_nonneg (mul_nonneg h1 h1) h2,
    sq_nonneg (x + 0.8), mul_nonneg h1 h2]

/-- On `[-π/2, π/2]` the square of `x` stays below `2.467401105`, strictly
between `π²/4` and the smallest positive root of the `tan` denominator.
This needs `π` to about nine decimal places, via `Real.pi_lt_d20`. -/
theorem sq_le_tan_bound (x : ℝ) (hlo : -(Real.pi / 2) ≤ x) (hhi : x ≤ Real.pi / 2) :
    x * x ≤ 493480221 / 200000000 := by
  have h1 : x ^ 2 ≤ (Real.pi / 2) ^ 2 := sq_le_sq' hlo hhi
  have h2 : (Real.pi / 2) ^ 2 ≤ ((3.14159265358979323847 : ℝ) / 2) ^ 2 := by
    have hp : (0 : ℝ) ≤ Real.pi / 2 := by positivity
    have hu : Real.pi / 2 ≤ (3.14159265358979323847 : ℝ) / 2 := by
      linarith [Real.pi_lt_d20]
    exact pow_le_pow_left₀ hp hu 2
  have h3 : ((3.14159265358979323847 : ℝ) / 2) ^ 2 ≤ 493480221 / 200000000 := by norm_num
  nlinarith [h1, h2, h3]

/-! ### The claims -/

/-- Claim C1: for each of the eight functions, the buffer form is elementwise
equivalent to the scalar form: after `buffer_fn(buf, n)`, for every index
`i < n` the element at `i` is the scalar form applied to the original
element at `i` (stated over `ℚ`, with `n` within the buffer length as the
caller contract requires). -/
theorem claim_C1_buffer_elementwise :
    (∀ (buf : List ℚ) (n i : ℕ), n ≤ buf.length → i < n →
      (cosh_buffer buf n)[i]? = Option.map cosh buf[i]?) ∧
    (∀ (buf : List ℚ) (n i : ℕ), n ≤ buf.length → i < n →
      (sinh_buffer buf n)[i]? = Option.map sinh buf[i]?) ∧
    (∀ (buf : List ℚ) (n i : ℕ), n ≤ buf.length → i < n →
      (tanh_buffer buf n)[i]? = Option.map tanh buf[i]?) ∧
    (∀ (buf : List ℚ) (n i : ℕ), n ≤ buf.length → i < n →
      (cos_buffer buf n)[i]? = Option.map cos buf[i]?) ∧
    (∀ (buf : List ℚ) (n i : ℕ), n ≤ buf.length → i < n →
      (sin_buffer buf n)[i]? = Option.map sin buf[i]?) ∧
    (∀ (buf : List ℚ) (n i : ℕ), n ≤ buf.length → i < n →
      (tan_buffer buf n)[i]? = Option.map tan buf[i]?) ∧
    (∀ (buf : List ℚ) (n i : ℕ), n ≤ buf.length → i < n →
      (exp_buffer buf n)[i]? = Option.map exp buf[i]?) ∧
    (∀ (buf : List ℚ) (n i : ℕ), n ≤ buf.length → i < n →
      (logNPlusOne_buffer buf n)[i]? = Option.map logNPlusOne buf[i]?) :=
  ⟨fun buf n i _ hi => buffer_elementwise cosh buf n i hi,
   fun buf n i _ hi => buffer_elementwise sinh buf n i hi,
   fun buf n i _ hi => buffer_elementwise tanh buf n i hi,
   fun buf n i _ hi => buffer_elementwise cos buf n i hi,
   fun buf n i _ hi => buffer_elementwise sin buf n i hi,
   fun buf n i _ hi => buffer_elementwise tan buf n i hi,
   fun buf n i _ hi => buffer_elementwise exp buf n i hi,
   fun buf n i _ hi => buffer_elementwise logNPlusOne buf n i hi⟩

/-- Witness for claim C1, at the concrete buffer `[1, 2]` with `n = 2`, `i = 1`. -/
theorem claim_C1_buffer_elementwise_witness :
    (2 ≤ ([1, 2] : List ℚ).length ∧ (1 : ℕ) < 2) ∧
    (cosh_buffer ([1, 2] : List ℚ) 2)[1]? = Option.map cosh (([1, 2] : List ℚ))[1]? ∧
    (sinh_buffer ([1, 2] : List ℚ) 2)[1]? = Option.map sinh (([1, 2] : List ℚ))[1]? ∧
    (tanh_buffer ([1, 2] : List ℚ) 2)[1]? = Option.map tanh (([1, 2] : List ℚ))[1]? ∧
    (cos_buffer ([1, 2] : List ℚ) 2)[1]? = Option.map cos (([1, 2] : List ℚ))[1]? ∧
    (sin_buffer ([1, 2] : List ℚ) 2)[1]? = Option.map sin (([1, 2] : List ℚ))[1]? ∧
    (tan_buffer ([1, 2] : List ℚ) 2)[1]? = Option.map tan (([1, 2] : List ℚ))[1]? ∧
    (exp_buffer ([1, 2] : List ℚ) 2)[1]? = Option.map exp (([1, 2] : List ℚ))[1]? ∧
    (logNPlusOne_buffer ([1, 2] : List ℚ) 2)[1]? =
      Option.map logNPlusOne (([1, 2] : List ℚ))[1]? :=
  ⟨⟨by decide, by decide⟩,
   claim_C1_buffer_elementwise.1 [1, 2] 2 1 (by decide) (by decide),
   claim_C1_buffer_elementwise.2.1 [1, 2] 2 1 (by decide) (by decide),
   claim_C1_buffer_elementwise.2.2.1 [1, 2] 2 1 (by decide) (by decide),
   claim_C1_buffer_elementwise.2.2.2.1 [1, 2] 2 1 (by decide) (by decide),
   claim_C1_buffer_elementwise.2.2.2.2.1 [1, 2] 2 1 (by decide) (by decide),
   claim_C1_buffer_elementwise.2.2.2.2.2.1 [1, 2] 2 1 (by decide) (by decide),
   claim_C1_buffer_elementwise.2.2.2.2.2.2.1 [1, 2] 2 1 (by decide) (by decide),
   claim_C1_buffer_elementwise.2.2.2.2.2.2.2 [1, 2] 2 1 (by decide) (by decide)⟩

/-- Claim C2: each of the eight denominator polynomials is non-zero at every
input in that function's documented domain (`cosh`, `sinh`, `tanh` on
`[-5, 5]`; `cos`, `sin` on `[-π, π]`; `tan` on `[-π/2, π/2]`; `exp` on
`[-6, 4]`; `logNPlusOne` on `[-0.8, 5]`), so in exact arithmetic the
division never divides by zero on the documented domain. -/
theorem claim_C2_denominator_nonzero :
    (∀ x : ℝ, -5 ≤ x → x ≤ 5 → cosh_den x ≠ 0) ∧
    (∀ x : ℝ, -5 ≤ x → x ≤ 5 → sinh_den x ≠ 0) ∧
    (∀ x : ℝ, -5 ≤ x → x ≤ 5 → tanh_den x ≠ 0) ∧
    (∀ x : ℝ, -Real.pi ≤ x → x ≤ Real.pi → cos_den x ≠ 0) ∧
    (∀ x : ℝ, -Real.pi ≤ x → x ≤ Real.pi → sin_den x ≠ 0) ∧
    (∀ x : ℝ, -(Real.pi / 2) ≤ x → x ≤ Real.pi / 2 → tan_den x ≠ 0) ∧
    (∀ x : ℝ, -6 ≤ x → x ≤ 4 → exp_den x ≠ 0) ∧
    (∀ x : ℝ, -0.8 ≤ x → x ≤ 5 → logNPlusOne_den x ≠ 0) := by
  refine ⟨?_, ?_, ?_, ?_, ?_, ?_, ?_, ?_⟩
  · intro x h1 h2; exact ne_of_lt (cosh_den_neg x (by nlinarith))
  · intro x h1 h2; exact ne_of_lt (sinh_den_neg x (by nlinarith))
  · intro x _ _; exact ne_of_gt (tanh_den_pos x)
  · intro x _ _; exact ne_of_gt (cos_den_pos x)
  · intro x _ _; exact ne_of_gt (sin_den_pos x)
  · intro x h1 h2; exact ne_of_lt (tan_den_neg x (sq_le_tan_bound x h1 h2))
  · intro x _ _; exact ne_of_gt (exp_den_pos x)
  · intro x h1 h2; exact ne_of_gt (logNPlusOne_den_pos x h1 h2)

/-- Witness for claim C2, at the concrete input `x = 0` for all eight
denominators. -/
theorem claim_C2_denominator_nonzero_witness :
    ((-5 : ℝ) ≤ 0 ∧ (0 : ℝ) ≤ 5 ∧ cosh_den (0 : ℝ) ≠ 0) ∧
    sinh_den (0 : ℝ) ≠ 0 ∧ tanh_den (0 : ℝ) ≠ 0 ∧
    (-Real.pi ≤ (0 : ℝ) ∧ (0 : ℝ) ≤ Real.pi ∧ cos_den (0 : ℝ) ≠ 0) ∧
    sin_den (0 : ℝ) ≠ 0 ∧
    (-(Real.pi / 2) ≤ (0 : ℝ) ∧ (0 : ℝ) ≤ Real.pi / 2 ∧ tan_den (0 : ℝ) ≠ 0) ∧
    exp_den (0 : ℝ) ≠ 0 ∧ logNPlusOne_den (0 : ℝ) ≠ 0 :=
  ⟨⟨by norm_num, by norm_num,
      claim_C2_denominator_nonzero.1 0 (by norm_num) (by norm_num)⟩,
    claim_C2_denominator_nonzero.2.1 0 (by norm_num) (by norm_num),
    claim_C2_denominator_nonzero.2.2.1 0 (by norm_num) (by norm_num),
    ⟨neg_nonpos_of_nonneg Real.pi_pos.le, Real.pi_pos.le,
      claim_C2_denominator_nonzero.2.2.2.1 0 (neg_nonpos_of_nonneg Real.pi_pos.le)
        Real.pi_pos.le⟩,
    claim_C2_denominator_nonzero.2.2.2.2.1 0 (neg_nonpos_of_nonneg Real.pi_pos.le)
      Real.pi_pos.le,
    ⟨neg_nonpos_of_nonneg (by positivity), by positivity,
      claim_C2_denominator_nonzero.2.2.2.2.2.1 0
        (neg_nonpos_of_nonneg (by positivity)) (by positivity)⟩,
    claim_C2_denominator_nonzero.2.2.2.2.2.2.1 0 (by norm_num) (by norm_num),
    claim_C2_denominator_nonzero.2.2.2.2.2.2.2 0 (by norm_num) (by norm_num)⟩

/-- Claim C3: each buffer form leaves every element at index `≥ n` unchanged,
and a call with `n = 0` leaves the entire buffer unchanged. -/
theorem claim_C3_frame :
    (∀ (buf : List ℚ) (n i : ℕ), n ≤ i → (cosh_buffer buf n)[i]? = buf[i]?) ∧
    (∀ (buf : List ℚ) (n i : ℕ), n ≤ i → (sinh_buffer buf n)[i]? = buf[i]?) ∧
    (∀ (buf : List ℚ) (n i : ℕ), n ≤ i → (tanh_buffer buf n)[i]? = buf[i]?) ∧
    (∀ (buf : List ℚ) (n i : ℕ), n ≤ i → (cos_buffer buf n)[i]? = buf[i]?) ∧
    (∀ (buf : List ℚ) (n i : ℕ), n ≤ i → (sin_buffer buf n)[i]? = buf[i]?) ∧
    (∀ (buf : List ℚ) (n i : ℕ), n ≤ i → (tan_buffer buf n)[i]? = buf[i]?) ∧
    (∀ (buf : List ℚ) (n i : ℕ), n ≤ i → (exp_buffer buf n)[i]? = buf[i]?) ∧
    (∀ (buf : List ℚ) (n i : ℕ), n ≤ i → (logNPlusOne_buffer buf n)[i]? = buf[i]?) ∧
    (∀ buf : List ℚ, cosh_buffer buf 0 = buf) ∧
    (∀ buf : List ℚ, sinh_buffer buf 0 = buf) ∧
    (∀ buf : List ℚ, tanh_buffer buf 0 = buf) ∧
    (∀ buf : List ℚ, cos_buffer buf 0 = buf) ∧
    (∀ buf : List ℚ, sin_buffer buf 0 = buf) ∧
    (∀ buf : List ℚ, tan_buffer buf 0 = buf) ∧
    (∀ buf : List ℚ, exp_buffer buf 0 = buf) ∧
    (∀ buf : List ℚ, logNPlusOne_buffer buf 0 = buf) :=
  ⟨fun buf n i h => getElem?_bufferLoop_of_ge cosh n 0 i buf (by omega),
   fun buf n i h => getElem?_bufferLoop_of_ge sinh n 0 i buf (by omega),
   fun buf n i h => getElem?_bufferLoop_of_ge tanh n 0 i buf (by omega),
   fun buf n i h => getElem?_bufferLoop_of_ge cos n 0 i buf (by omega),
   fun buf n i h => getElem?_bufferLoop_of_ge sin n 0 i buf (by omega),
   fun buf n i h => getElem?_bufferLoop_of_ge tan n 0 i buf (by omega),
   fun buf n i h => getElem?_bufferLoop_of_ge exp n 0 i buf (by omega),
   fun buf n i h => getElem?_bufferLoop_of_ge logNPlusOne n 0 i buf (by omega),
   fun _ => rfl, fun _ => rfl, fun _ => rfl, fun _ => rfl,
   fun _ => rfl, fun _ => rfl, fun _ => rfl, fun _ => rfl⟩

/-- Witness for claim C3, at the concrete buffer `[1, 2]` with `n = 1`,
`i = 1`. -/
theorem claim_C3_frame_witness :
    ((1 : ℕ) ≤ 1) ∧
    (cosh_buffer ([1, 2] : List ℚ) 1)[1]? = (([1, 2] : List ℚ))[1]? ∧
    (sinh_buffer ([1, 2] : List ℚ) 1)[1]? = (([1, 2] : List ℚ))[1]? ∧
    (tanh_buffer ([1, 2] : List ℚ) 1)[1]? = (([1, 2] : List ℚ))[1]? ∧
    (cos_buffer ([1, 2] : List ℚ) 1)[1]? = (([1, 2] : List ℚ))[1]? ∧
    (sin_buffer ([1, 2] : List ℚ) 1)[1]? = (([1, 2] : List ℚ))[1]? ∧
    (tan_buffer ([1, 2] : List ℚ) 1)[1]? = (([1, 2] : List ℚ))[1]? ∧
    (exp_buffer ([1, 2] : List ℚ) 1)[1]? = (([1, 2] : List ℚ))[1]? ∧
    (logNPlusOne_buffer ([1, 2] : List ℚ) 1)[1]? = (([1, 2] : List ℚ))[1]? :=
  ⟨by decide,
   claim_C3_frame.1 [1, 2] 1 1 (by decide),
   claim_C3_frame.2.1 [1, 2] 1 1 (by decide),
   claim_C3_frame.2.2.1 [1, 2] 1 1 (by decide),
   claim_C3_frame.2.2.2.1 [1, 2] 1 1 (by decide),
   claim_C3_frame.2.2.2.2.1 [1, 2] 1 1 (by decide),
   claim_C3_frame.2.2.2.2.2.1 [1, 2] 1 1 (by decide),
   claim_C3_frame.2.2.2.2.2.2.1 [1, 2] 1 1 (by decide),
   claim_C3_frame.2.2.2.2.2.2.2.1 [1, 2] 1 1 (by decide)⟩

/-- Claim C4: the scalar `exp` returns exactly `N(x) / D(x)` with
`N(x) = 1680 + x (840 + x (180 + x (20 + x)))` and
`D(x) = 1680 + x (-840 + x (180 + x (-20 + x)))`, Horner form directly in
`x` with exactly these coefficients (the statement spells the spec's
polynomials out literally; the proof is definitional). -/
theorem claim_C4_exp_formula :
    ∀ x : ℚ, exp x =
      (1680 + x * (840 + x * (180 + x * (20 + x)))) /
      (1680 + x * (-840 + x * (180 + x * (-20 + x)))) :=
  fun _ => rfl

/-- Claim C5: the scalar `logNPlusOne` returns exactly `N(x) / D(x)` with
`N(x) = x (7560 + x (15120 + x (9870 + x (2310 + 137 x))))` and
`D(x) = 7560 + x (18900 + x (16800 + x (6300 + x (900 + 30 x))))`, a
degree-5 over degree-5 rational function directly in `x` with exactly
these coefficients. -/
theorem claim_C5_logNPlusOne_formula :
    ∀ x : ℚ, logNPlusOne x =
      (x * (7560 + x * (15120 + x * (9870 + x * (2310 + 137 * x))))) /
      (7560 + x * (18900 + x * (16800 + x * (6300 + x * (900 + 30 * x))))) := by
  intro x
  rw [logNPlusOne, logNPlusOne_num, logNPlusOne_den]
  congr 1
  ring

/-- Claim C6: at input `0` the eight scalar forms take, in exact arithmetic
exactly (hence within any tolerance), the values `cos 0 = 1`, `cosh 0 = 1`,
`sin 0 = 0`, `sinh 0 = 0`, `tan 0 = 0`, `tanh 0 = 0`, `exp 0 = 1`,
`logNPlusOne 0 = 0`. -/
theorem claim_C6_values_at_zero :
    cos (0 : ℚ) = 1 ∧ cosh (0 : ℚ) = 1 ∧ sin (0 : ℚ) = 0 ∧ sinh (0 : ℚ) = 0 ∧
    tan (0 : ℚ) = 0 ∧ tanh (0 : ℚ) = 0 ∧ exp (0 : ℚ) = 1 ∧ logNPlusOne (0 : ℚ) = 0 := by
  refine ⟨?_, ?_, ?_, ?_, ?_, ?_, ?_, ?_⟩ <;>
    norm_num [cos, cos_num, cos_den, cosh, cosh_num, cosh_den, sin, sin_num, sin_den,
      sinh, sinh_num, sinh_den, tan, tan_num, tan_den, tanh, tanh_num, tanh_den,
      exp, exp_num, exp_den, logNPlusOne, logNPlusOne_num, logNPlusOne_den]

/-- Claim C7: on their documented domains the `sin` and `tan` approximations
are odd and the `cos` and `cosh` approximations are even (the parity holds
in fact for every real `x`, as the helper lemmas show; the statement keeps
the documented domains). -/
theorem claim_C7_parity :
    (∀ x : ℝ, -Real.pi ≤ x → x ≤ Real.pi → sin (-x) = -sin x) ∧
    (∀ x : ℝ, -(Real.pi / 2) ≤ x → x ≤ Real.pi / 2 → tan (-x) = -tan x) ∧
    (∀ x : ℝ, -Real.pi ≤ x → x ≤ Real.pi → cos (-x) = cos x) ∧
    (∀ x : ℝ, -5 ≤ x → x ≤ 5 → cosh (-x) = cosh x) :=
  ⟨fun x _ _ => sin_neg_eq x, fun x _ _ => tan_neg_eq x,
   fun x _ _ => cos_neg_eq x, fun x _ _ => cosh_neg_eq x⟩

/-- Witness for claim C7, at the concrete input `x = 1` for all four parity
statements. -/
theorem claim_C7_parity_witness :
    (-Real.pi ≤ (1 : ℝ) ∧ (1 : ℝ) ≤ Real.pi ∧ sin (-(1 : ℝ)) = -sin 1) ∧
    (-(Real.pi / 2) ≤ (1 : ℝ) ∧ (1 : ℝ) ≤ Real.pi / 2 ∧ tan (-(1 : ℝ)) = -tan 1) ∧
    (-Real.pi ≤ (1 : ℝ) ∧ (1 : ℝ) ≤ Real.pi ∧ cos (-(1 : ℝ)) = cos 1) ∧
    (-5 ≤ (1 : ℝ) ∧ (1 : ℝ) ≤ 5 ∧ cosh (-(1 : ℝ)) = cosh 1) :=
  ⟨⟨by nlinarith [Real.pi_gt_three], by nlinarith [Real.pi_gt_three],
      claim_C7_parity.1 1 (by nlinarith [Real.pi_gt_three])
        (by nlinarith [Real.pi_gt_three])⟩,
   ⟨by nlinarith [Real.pi_gt_three], by nlinarith [Real.pi_gt_three],
      claim_C7_parity.2.1 1 (by nlinarith [Real.pi_gt_three])
        (by nlinarith [Real.pi_gt_three])⟩,
   ⟨by nlinarith [Real.pi_gt_three], by nlinarith [Real.pi_gt_three],
      claim_C7_parity.2.2.1 1 (by nlinarith [Real.pi_gt_three])
        (by nlinarith [Real.pi_gt_three])⟩,
   ⟨by norm_num, by norm_num,
      claim_C7_parity.2.2.2 1 (by norm_num) (by norm_num)⟩⟩

/-- Claim C9: every buffer form call is total, and for `n` within the buffer
length (the caller contract) it rewrites the first `n` elements as exactly
`n` elementwise applications of the scalar form — a map over the length-`n`
prefix — while appending the untouched suffix. -/
theorem claim_C9_buffer_termination :
    (∀ (buf : List ℚ) (n : ℕ), n ≤ buf.length →
      cosh_buffer buf n = (buf.take n).map cosh ++ buf.drop n) ∧
    (∀ (buf : List ℚ) (n : ℕ), n ≤ buf.length →
      sinh_buffer buf n = (buf.take n).map sinh ++ buf.drop n) ∧
    (∀ (buf : List ℚ) (n : ℕ), n ≤ buf.length →
      tanh_buffer buf n = (buf.take n).map tanh ++ buf.drop n) ∧
    (∀ (buf : List ℚ) (n : ℕ), n ≤ buf.length →
      cos_buffer buf n = (buf.take n).map cos ++ buf.drop n) ∧
    (∀ (buf : List ℚ) (n : ℕ), n ≤ buf.length →
      sin_buffer buf n = (buf.take n).map sin ++ buf.drop n) ∧
    (∀ (buf : List ℚ) (n : ℕ), n ≤ buf.length →
      tan_buffer buf n = (buf.take n).map tan ++ buf.drop n) ∧
    (∀ (buf : List ℚ) (n : ℕ), n ≤ buf.length →
      exp_buffer buf n = (buf.take n).map exp ++ buf.drop n) ∧
    (∀ (buf : List ℚ) (n : ℕ), n ≤ buf.length →
      logNPlusOne_buffer buf n = (buf.take n).map logNPlusOne ++ buf.drop n) :=
  ⟨fun buf n h => buffer_eq_map_take cosh buf n h,
   fun buf n h => buffer_eq_map_take sinh buf n h,
   fun buf n h => buffer_eq_map_take tanh buf n h,
   fun buf n h => buffer_eq_map_take cos buf n h,
   fun buf n h => buffer_eq_map_take sin buf n h,
   fun buf n h => buffer_eq_map_take tan buf n h,
   fun buf n h => buffer_eq_map_take exp buf n h,
   fun buf n h => buffer_eq_map_take logNPlusOne buf n h⟩

/-- Witness for claim C9, at the concrete buffer `[1, 2]` with `n = 1`. -/
theorem claim_C9_buffer_termination_witness :
    (1 ≤ ([1, 2] : List ℚ).length) ∧
    cosh_buffer ([1, 2] : List ℚ) 1 =
      (([1, 2] : List ℚ).take 1).map cosh ++ ([1, 2] : List ℚ).drop 1 ∧
    sinh_buffer ([1, 2] : List ℚ) 1 =
      (([1, 2] : List ℚ).take 1).map sinh ++ ([1, 2] : List ℚ).drop 1 ∧
    tanh_buffer ([1, 2] : List ℚ) 1 =
      (([1, 2] : List ℚ).take 1).map tanh ++ ([1, 2] : List ℚ).drop 1 ∧
    cos_buffer ([1, 2] : List ℚ) 1 =
      (([1, 2] : List ℚ).take 1).map cos ++ ([1, 2] : List ℚ).drop 1 ∧
    sin_buffer ([1, 2] : List ℚ) 1 =
      (([1, 2] : List ℚ).take 1).map sin ++ ([1, 2] : List ℚ).drop 1 ∧
    tan_buffer ([1, 2] : List ℚ) 1 =
      (([1, 2] : List ℚ).take 1).map tan ++ ([1, 2] : List ℚ).drop 1 ∧
    exp_buffer ([1, 2] : List ℚ) 1 =
      (([1, 2] : List ℚ).take 1).map exp ++ ([1, 2] : List ℚ).drop 1 ∧
    logNPlusOne_buffer ([1, 2] : List ℚ) 1 =
      (([1, 2] : List ℚ).take 1).map logNPlusOne ++ ([1, 2] : List ℚ).drop 1 :=
  ⟨by decide,
   claim_C9_buffer_termination.1 [1, 2] 1 (by decide),
   claim_C9_buffer_termination.2.1 [1, 2] 1 (by decide),
   claim_C9_buffer_termination.2.2.1 [1, 2] 1 (by decide),
   claim_C9_buffer_termination.2.2.2.1 [1, 2] 1 (by decide),
   claim_C9_buffer_termination.2.2.2.2.1 [1, 2] 1 (by decide),
   claim_C9_buffer_termination.2.2.2.2.2.1 [1, 2] 1 (by decide),
   claim_C9_buffer_termination.2.2.2.2.2.2.1 [1, 2] 1 (by decide),
   claim_C9_buffer_termination.2.2.2.2.2.2.2 [1, 2] 1 (by decide)⟩

/-- Claim C10: the `exp` denominator polynomial is the numerator polynomial
with `x` negated, and consequently, whenever both denominators are
non-zero, `exp x * exp (-x) = 1` and equivalently `exp (-x) = 1 / exp x`,
exactly. -/
theorem claim_C10_exp_reciprocal :
    (∀ x : ℚ, exp_den x = exp_num (-x)) ∧
    (∀ x : ℚ, exp_den x ≠ 0 → exp_den (-x) ≠ 0 → exp x * exp (-x) = 1) ∧
    (∀ x : ℚ, exp_den x ≠ 0 → exp_den (-x) ≠ 0 → exp (-x) = 1 / exp x) := by
  have hden : ∀ x : ℚ, exp_den x = exp_num (-x) := by
    intro x; simp only [exp_den, exp_num]; ring
  have hmul : ∀ x : ℚ, exp_den x ≠ 0 → exp_den (-x) ≠ 0 → exp x * exp (-x) = 1 := by
    intro x h1 h2
    have e1 : exp_num x = exp_den (-x) := by simp only [exp_den, exp_num]; ring
    have e2 : exp_num (-x) = exp_den x := (hden x).symm
    rw [exp, exp, e1, e2, div_mul_div_comm, div_eq_one_iff_eq (mul_ne_zero h1 h2)]
    ring
  exact ⟨hden, hmul, fun x h1 h2 =>
    eq_one_div_of_mul_eq_one_left ((mul_comm (exp x) (exp (-x))) ▸ hmul x h1 h2)⟩

/-- Witness for claim C10, at the concrete input `x = 1` (both denominators
evaluate to the non-zero rationals `1001` and `2721`). -/
theorem claim_C10_exp_reciprocal_witness :
    exp_den (1 : ℚ) ≠ 0 ∧ exp_den (-1 : ℚ) ≠ 0 ∧ exp (1 : ℚ) * exp (-1 : ℚ) = 1 :=
  ⟨by norm_num [exp_den], by norm_num [exp_den],
   claim_C10_exp_reciprocal.2.1 1 (by norm_num [exp_den]) (by norm_num [exp_den])⟩

end FastMathApproximations
